import Mathlib

/-!
Verification development for the lBIS discord bot's session/bank/latch
accounting engine and pump-control state machine.

Shallow embedding conventions:
* The global bot-attribute state bag (`lBISBot.__init__`, `bot.py`) is the
  structure `BotState`.  Python ints are `Int`; Python floats that hold whole
  or fractional second counts (event-loop times, intensities) are `Rat`, with
  Python's `int(x)` on a non-negative float modelled as `Rat.floor`.
* `asyncio` tasks are modelled by the observable predicate the code tests:
  `bot.pump_task and not bot.pump_task.done()` becomes the boolean field
  `pump_task_live`; the latch timer handle becomes `latch_timer`.
* Every remote-actuator HTTP call (`setPumpState`, via `api_request` in
  `utils/api.py` or the inline `aiohttp` call in `utils/latch_management.py`)
  is a suspension whose outcome is the boolean parameter `apiOk`
  (`false` covers a non-200 status, a timeout and a raised exception alike,
  which the source treats identically).  `time.time()` is the parameter
  `wall_now`, `asyncio.get_event_loop().time()` the parameter `now`.
* Operations are pure functions from the pre-state (plus those oracles) to
  the post-state and an explicit result describing what was reported.
-/

namespace LBIS

/-- Configuration values read via `bot.config.get` (file `bot.json`),
with the defaults hard-coded at each call site. -/
structure Config where
  max_pump_duration : Int
  max_banked_time : Int
  max_session_time : Int
  default_session_time : Int
deriving DecidableEq, Repr

/-- The bot-attribute state bag: fields set in `lBISBot.__init__` (`bot.py`)
plus the four extra persisted keys that `StateManager.apply_to_bot` attaches
at startup (`last_session_update`, `pump_last_on_time`, `pump_total_on_time`,
`pump_state`).  `pump_task_live` stands for
`bot.pump_task and not bot.pump_task.done()`; `latch_timer` for
`bot.latch_timer is not None`. -/
structure BotState where
  session_time_remaining : Int
  banked_time : Int
  default_session_time : Int
  pump_intensity : Rat
  latch_active : Bool
  latch_reason : Option String
  latch_end_time : Option Rat
  latch_timer : Bool
  pump_task_live : Bool
  pump_task_end_time : Option Rat
  session_pump_start : Option Rat
  service_was_up : Bool
  last_pump_time : Option Rat
  last_session_update : Option Rat
  pump_last_on_time : Int
  pump_total_on_time : Int
  pump_state : Bool
deriving DecidableEq, Repr

/-! ## Latch management (`utils/latch_management.py`) -/

/-- `toggle_latch(bot, new_state, reason, duration)`: returns the new state,
the returned success flag (always `True` in the source) and whether the
returned message carries the pump-off warning.  When latching, the actuator
is commanded to level 0; `apiOk = false` (non-200 status or exception) only
sets the warning — the latch state change is kept. -/
def toggle_latch (s : BotState) (new_state : Bool) (reason : Option String)
    (duration : Option Int) (apiOk : Bool) (now : Rat) :
    BotState × Bool × Bool :=
  -- cancel existing timer if any
  let s := if s.latch_timer then
    { s with latch_timer := false, latch_end_time := none } else s
  let s := { s with latch_active := new_state,
                    latch_reason := if new_state then reason else none }
  if new_state then
    -- POST /api/setPumpState {pump: 0}; failure or exception only warns
    let warned := !apiOk
    let s := match duration with
      | some d =>
        if d > 0 then
          { s with latch_end_time := some (now + (d : Rat)),
                   latch_timer := true }
        else s
      | none => s
    (s, true, warned)
  else
    ({ s with latch_end_time := none, latch_reason := none }, true, false)

/-- `set_latch_reason(bot, reason)`: sets or clears the reason only while the
latch is active; returns the success flag. -/
def set_latch_reason (s : BotState) (reason : Option String) :
    BotState × Bool :=
  if !s.latch_active then (s, false)
  else ({ s with latch_reason := reason }, true)

/-- `auto_unlatch(bot, delay)` after its sleep: a no-op when the timer handle
was cleared (manual unlatch), otherwise clears the whole latch state. -/
def auto_unlatch (s : BotState) : BotState :=
  if s.latch_timer then
    { s with latch_active := false, latch_timer := false,
             latch_end_time := none, latch_reason := none }
  else s

/-- LatchState invariant from the spec (§3): `latch_end_time` and the timer
handle are set together or both absent; when inactive, reason and end time
are cleared. -/
def latch_invariant (s : BotState) : Prop :=
  (s.latch_end_time.isSome = true ↔ s.latch_timer = true) ∧
  (s.latch_active = false → s.latch_reason = none ∧ s.latch_end_time = none)

instance (s : BotState) : Decidable (latch_invariant s) := by
  unfold latch_invariant; infer_instance

/-! ## Persistent state (`state_manager.py`, `utils/state_persistence.py`) -/

/-- The flat JSON snapshot held by `StateManager.state`: exactly the keys of
the default dictionary in `StateManager.__init__`.  Note that
`pump_intensity` is not among them. -/
structure StateDict where
  session_time_remaining : Int
  last_session_update : Option Rat
  session_pump_start : Option Rat
  pump_last_on_time : Int
  pump_total_on_time : Int
  pump_state : Bool
  default_session_time : Int
  banked_time : Int
  latch_active : Bool
  latch_end_time : Option Rat
  latch_reason : Option String
deriving DecidableEq, Repr

/-- The default dictionary built in `StateManager.__init__`. -/
def default_state (default_initial_time : Int) : StateDict :=
  { session_time_remaining := 0
    last_session_update := none
    session_pump_start := none
    pump_last_on_time := 0
    pump_total_on_time := 0
    pump_state := false
    default_session_time := default_initial_time
    banked_time := 0
    latch_active := false
    latch_end_time := none
    latch_reason := none }

/-- `StateManager.load_state`: a missing or unreadable file yields the
defaults; a readable file replaces every default via `state.update(data)`
(files written by `save_state` carry the full key set, and always carry an
integer `default_session_time`, so the `None` fix-up on line 67 of
`state_manager.py` is a no-op here). -/
def load_state (file : Option StateDict) (default_initial_time : Int) :
    StateDict :=
  match file with
  | none => default_state default_initial_time
  | some d => d

/-- `StateManager.update_and_save(bot)`: copy each state key from the bot
attribute of the same name (the bot carries all of them after startup), then
write the dictionary atomically.  The value returned is the snapshot written
to disk. -/
def update_and_save (bot : BotState) : StateDict :=
  { session_time_remaining := bot.session_time_remaining
    last_session_update := bot.last_session_update
    session_pump_start := bot.session_pump_start
    pump_last_on_time := bot.pump_last_on_time
    pump_total_on_time := bot.pump_total_on_time
    pump_state := bot.pump_state
    default_session_time := bot.default_session_time
    banked_time := bot.banked_time
    latch_active := bot.latch_active
    latch_end_time := bot.latch_end_time
    latch_reason := bot.latch_reason }

/-- `StateManager.apply_to_bot(bot)`: set every loaded key on the bot;
attributes outside the key set (`pump_intensity`, task handles, …) are left
as they are. -/
def apply_to_bot (st : StateDict) (bot : BotState) : BotState :=
  { bot with
    session_time_remaining := st.session_time_remaining
    last_session_update := st.last_session_update
    session_pump_start := st.session_pump_start
    pump_last_on_time := st.pump_last_on_time
    pump_total_on_time := st.pump_total_on_time
    pump_state := st.pump_state
    default_session_time := st.default_session_time
    banked_time := st.banked_time
    latch_active := st.latch_active
    latch_end_time := st.latch_end_time
    latch_reason := st.latch_reason }

/-- The attribute values assigned in `lBISBot.__init__` (`bot.py` lines
63-86) before `utils.load_session_state` runs; the four trailing fields only
exist after the first `apply_to_bot`, so their pre-load values are the
defaults they are about to receive. -/
def fresh_bot_attrs : BotState :=
  { session_time_remaining := 0
    banked_time := 0
    default_session_time := 0
    pump_intensity := 1
    latch_active := false
    latch_reason := none
    latch_end_time := none
    latch_timer := false
    pump_task_live := false
    pump_task_end_time := none
    session_pump_start := none
    service_was_up := true
    last_pump_time := none
    last_session_update := none
    pump_last_on_time := 0
    pump_total_on_time := 0
    pump_state := false }

/-- `lBISBot.__init__` handing off to `utils.load_session_state(bot)`: build
the `StateManager` with `default_initial_time = config.get('max_session_time',
1800)`, load the snapshot and apply it to the freshly initialised bot;
`latch_timer`, `pump_task` and `pump_task_end_time` stay at their transient
defaults (they are not persisted). -/
def init_bot_state (file : Option StateDict) (cfg : Config) : BotState :=
  apply_to_bot (load_state file cfg.max_session_time) fresh_bot_attrs

/-! ## Session and bank accounting
(`cogs/session.py`, `cogs/admin.py`, `utils/session_management.py`).
Each slash-command body is modelled after its permission decorators and
interaction plumbing; the boolean result is `true` when the command mutated
state (accepted) and `false` on a validation rejection. -/

/-- `SessionGroup.add(minutes)` with `max_session = config.get
('max_session_time', 7200)`. -/
def session_add (cfg : Config) (s : BotState) (minutes : Int) :
    BotState × Bool :=
  if minutes ≤ 0 then (s, false)
  else
    let current_time := s.session_time_remaining
    let time_to_add := minutes * 60
    let new_time := min (current_time + time_to_add) cfg.max_session_time
    let actual_added := new_time - current_time
    if actual_added ≤ 0 ∧ time_to_add > 0 then (s, false)
    else ({ s with session_time_remaining := new_time }, true)

/-- `SessionGroup.rem(minutes)`. -/
def session_rem (s : BotState) (minutes : Int) : BotState × Bool :=
  if minutes ≤ 0 then (s, false)
  else
    let new_time := max 0 (s.session_time_remaining - minutes * 60)
    ({ s with session_time_remaining := new_time }, true)

/-- `SessionGroup.set(minutes)`: rejects negatives, clamps to
`max_session_time`, clears `session_pump_start`. -/
def session_set (cfg : Config) (s : BotState) (minutes : Int) :
    BotState × Bool :=
  if minutes < 0 then (s, false)
  else
    let new_time_seconds := min (minutes * 60) cfg.max_session_time
    ({ s with session_time_remaining := new_time_seconds,
              session_pump_start := none }, true)

/-- `SessionGroup.reset()`: restores `config.get('default_session_time',
1800)` and clears `session_pump_start`. -/
def session_reset (cfg : Config) (s : BotState) : BotState :=
  { s with session_time_remaining := cfg.default_session_time,
           session_pump_start := none }

/-- `BankGroup.add(seconds)` with `max_bank = config.get('max_banked_time',
3600)`. -/
def bank_add (cfg : Config) (s : BotState) (seconds : Int) :
    BotState × Bool :=
  if seconds ≤ 0 then (s, false)
  else
    ({ s with banked_time := min (s.banked_time + seconds)
                                 cfg.max_banked_time }, true)

/-- `BankGroup.rem(seconds)`: floors at zero, never errors on overdraw. -/
def bank_rem (s : BotState) (seconds : Int) : BotState × Bool :=
  if seconds ≤ 0 then (s, false)
  else ({ s with banked_time := max 0 (s.banked_time - seconds) }, true)

/-- `BankGroup.set(seconds)`: rejects negatives, clamps to
`max_banked_time`. -/
def bank_set (cfg : Config) (s : BotState) (seconds : Int) :
    BotState × Bool :=
  if seconds < 0 then (s, false)
  else ({ s with banked_time := min seconds cfg.max_banked_time }, true)

/-- `BankGroup.reset()`: zeroes the bank unconditionally and saves. -/
def bank_reset (s : BotState) : BotState :=
  { s with banked_time := 0 }

/-- `update_session_time(bot, delta_seconds)`
(`utils/session_management.py`): applies the delta, floored at zero; no
maximum cap is applied here. -/
def update_session_time (s : BotState) (delta_seconds : Int) : BotState :=
  { s with session_time_remaining :=
              max 0 (s.session_time_remaining + delta_seconds) }

/-! ## Pump supervisor starts (`cogs/pump.py`) -/

/-- Observable outcome of `_start_timed_pump`. `started`/`start_failed`
record the intensity posted to `setPumpState`; `type_error` marks the branch
where the source would raise a `TypeError` (`pump_task_end_time is None`
while a task is live — unreachable through this code's own flows). -/
inductive TimedStart where
  | rejected
  | extendedBy (time_to_add : Rat) (banked_amount : Int)
  | start_failed (intensity : Rat)
  | started (run_seconds : Int) (intensity : Rat)
  | type_error
deriving DecidableEq, Repr

/-- `_start_timed_pump(bot, interaction, seconds)`: validation guards, then
either the extension branch (task live) or the fresh-start branch.  Python's
`int(overflow)` truncates toward zero; `overflow` is non-negative, so it is
`Rat.floor`. -/
def _start_timed_pump (cfg : Config) (s : BotState) (seconds : Int)
    (now wall_now : Rat) (apiOk : Bool) : BotState × TimedStart :=
  let max_pump_duration := cfg.max_pump_duration
  if seconds ≤ 0 then (s, .rejected)
  else if seconds > max_pump_duration then (s, .rejected)
  else if s.latch_active then (s, .rejected)
  else if !s.service_was_up then (s, .rejected)
  else
    let max_bank := cfg.max_banked_time
    if s.pump_task_live then
      match s.pump_task_end_time with
      | none => (s, .type_error)
      | some et =>
        let remaining_current := max 0 (et - now)
        let max_possible_additional :=
          max 0 ((s.session_time_remaining : Rat) - remaining_current)
        let effective_max_duration_for_extension :=
          min (remaining_current + max_possible_additional)
              (max_pump_duration : Rat)
        let time_to_add :=
          max 0 (effective_max_duration_for_extension - remaining_current)
        let time_to_add := min time_to_add (seconds : Rat)
        let overflow := max 0 ((seconds : Rat) - time_to_add)
        let sb :=
          if overflow > 0 then
            let old_banked := s.banked_time
            let new_banked := min (old_banked + Rat.floor overflow) max_bank
            ({ s with banked_time := new_banked }, new_banked - old_banked)
          else (s, 0)
        let s := sb.1
        let new_end_time := now + remaining_current + time_to_add
        let s := { s with pump_task_end_time := some new_end_time }
        (s, .extendedBy time_to_add sb.2)
    else
      if s.session_time_remaining ≤ 0 then (s, .rejected)
      else
        let run_seconds := min seconds s.session_time_remaining
        if run_seconds ≤ 0 then (s, .rejected)
        else if apiOk then
          ({ s with last_pump_time := some wall_now,
                    pump_task_end_time := some (now + (run_seconds : Rat)),
                    pump_task_live := true },
           .started run_seconds s.pump_intensity)
        else (s, .start_failed s.pump_intensity)

/-- Observable outcome of `_start_banked_pump`. -/
inductive BankedStart where
  | rejected
  | start_failed (intensity : Rat)
  | started (run_seconds : Int) (intensity : Rat)
deriving DecidableEq, Repr

/-- `_start_banked_pump(bot, interaction, seconds)`. -/
def _start_banked_pump (cfg : Config) (s : BotState) (seconds : Int)
    (now wall_now : Rat) (apiOk : Bool) : BotState × BankedStart :=
  let max_pump_duration := cfg.max_pump_duration
  if seconds ≤ 0 then (s, .rejected)
  else if s.latch_active then (s, .rejected)
  else if !s.service_was_up then (s, .rejected)
  else if s.pump_task_live then (s, .rejected)
  else if s.banked_time ≤ 0 then (s, .rejected)
  else if s.session_time_remaining ≤ 0 then (s, .rejected)
  else
    let run_seconds :=
      min (min seconds s.banked_time)
          (min s.session_time_remaining max_pump_duration)
    if run_seconds ≤ 0 then (s, .rejected)
    else if apiOk then
      ({ s with last_pump_time := some wall_now,
                pump_task_end_time := some (now + (run_seconds : Rat)),
                pump_task_live := true },
       .started run_seconds s.pump_intensity)
    else (s, .start_failed s.pump_intensity)

/-- Observable outcome of `PumpGroup.pump_intensity`. -/
inductive IntensityResult where
  | rejected
  | set_only (value : Rat)
  | set_applied (value : Rat)
  | set_apply_failed (value : Rat)
deriving DecidableEq, Repr

/-- `PumpGroup.pump_intensity(intensity)`: validates the range, stores the
default, and — when a pump task is live — pushes the value through
`_send_pump_state_api(bot, None, intensity)`, whose first step cancels the
running task iff `intensity == 0.0`; an API failure is reported but the
stored default is kept. -/
def pump_intensity_cmd (s : BotState) (intensity : Rat) (apiOk : Bool)
    (wall_now : Rat) : BotState × IntensityResult :=
  if ¬(0 ≤ intensity ∧ intensity ≤ 1) then (s, .rejected)
  else
    let s := { s with pump_intensity := intensity }
    if s.pump_task_live then
      -- _send_pump_state_api: `if intensity == 0.0: bot.pump_task.cancel()`
      let s := if intensity = 0 then { s with pump_task_live := false }
               else s
      if apiOk then
        ({ s with last_pump_time := some wall_now }, .set_applied intensity)
      else (s, .set_apply_failed intensity)
    else (s, .set_only intensity)

/-- C1: every `toggle_latch` call with `new_state = true` applies the latch
regardless of the actuator: `latch_active` is true on return and the call
reports success even when the set-level-0 command fails or times out
(`apiOk = false`); the failure shows up only as the warning flag of the
returned message, and the function is total (no exception escapes). -/
theorem toggle_latch_on_applies_latch (s : BotState) (reason : Option String)
    (duration : Option Int) (apiOk : Bool) (now : Rat) :
    (toggle_latch s true reason duration apiOk now).1.latch_active = true ∧
    (toggle_latch s true reason duration apiOk now).2.1 = true ∧
    ((toggle_latch s true reason duration apiOk now).2.2 = true ↔
      apiOk = false) := by
  unfold toggle_latch
  cases duration with
  | none =>
    cases apiOk <;> simp
  | some d =>
    by_cases hd : d > 0 <;> cases apiOk <;> simp [hd]

/-! ## Sample configurations and states for concrete evaluations -/

/-- A configuration with every default from the source call sites. -/
def cfg0 : Config :=
  { max_pump_duration := 60
    max_banked_time := 3600
    max_session_time := 7200
    default_session_time := 1800 }

/-- A bot state carrying distinctive values in every persisted field. -/
def round_bot : BotState :=
  { fresh_bot_attrs with
    session_time_remaining := 123
    banked_time := 45
    default_session_time := 900
    pump_intensity := 1/2
    latch_active := true
    latch_reason := some "maintenance"
    latch_end_time := some 10
    latch_timer := true }

/-- A bot state with some session time and nothing else going on. -/
def idle_bot : BotState :=
  { fresh_bot_attrs with session_time_remaining := 100 }

/-- C5: the session add command never raises `session_time_remaining` above
`max_session_time`, bank add and bank set never raise `banked_time` above
`max_banked_time`, and session remove, bank remove and the internal
`update_session_time` debit never drive either counter below zero (they
either leave the field untouched on rejection or write a floored-at-zero
value). -/
theorem accounting_caps_and_floors (cfg : Config) (s : BotState)
    (minutes seconds delta : Int) :
    (session_add cfg s minutes).1.session_time_remaining ≤
      max s.session_time_remaining cfg.max_session_time ∧
    (bank_add cfg s seconds).1.banked_time ≤
      max s.banked_time cfg.max_banked_time ∧
    (bank_set cfg s seconds).1.banked_time ≤
      max s.banked_time cfg.max_banked_time ∧
    ((session_rem s minutes).1.session_time_remaining =
        s.session_time_remaining ∨
      0 ≤ (session_rem s minutes).1.session_time_remaining) ∧
    ((bank_rem s seconds).1.banked_time = s.banked_time ∨
      0 ≤ (bank_rem s seconds).1.banked_time) ∧
    0 ≤ (update_session_time s delta).session_time_remaining := by
  refine ⟨?_, ?_, ?_, ?_, ?_, ?_⟩
  · simp only [session_add]; split_ifs <;> simp
  · simp only [bank_add]; split_ifs <;> simp
  · simp only [bank_set]; split_ifs <;> simp
  · simp only [session_rem]; split_ifs <;> simp
  · simp only [bank_rem]; split_ifs <;> simp
  · simp only [update_session_time]; simp

/-- C10: the bank reset command sets `banked_time` to exactly 0 for every
prior value (no configured default is restored — by contrast, session reset
restores `default_session_time` from the config), the snapshot it persists
records the zero, and the operation has no rejection branch. -/
theorem bank_reset_zeroes (s : BotState) (cfg : Config) :
    (bank_reset s).banked_time = 0 ∧
    (update_and_save (bank_reset s)).banked_time = 0 ∧
    (session_reset cfg s).session_time_remaining =
      cfg.default_session_time :=
  ⟨rfl, rfl, rfl⟩

/-- C6 counterexample: the claim asserts the save/load round trip restores
`pump_intensity` bit-identical, but `pump_intensity` is not among
`StateManager.state`'s keys, so `update_and_save` never writes it and a
fresh instance keeps the constructor default 1.0: starting from intensity
1/2 the round trip comes back with 1. -/
theorem persisted_roundtrip_drops_intensity :
    round_bot.pump_intensity = 1/2 ∧
    (init_bot_state (some (update_and_save round_bot)) cfg0).pump_intensity
      = 1 ∧
    (init_bot_state (some (update_and_save round_bot)) cfg0).pump_intensity
      ≠ round_bot.pump_intensity :=
  ⟨rfl, rfl, by
    show (init_bot_state (some (update_and_save round_bot))
        cfg0).pump_intensity ≠ round_bot.pump_intensity
    simp only [init_bot_state, apply_to_bot, load_state, fresh_bot_attrs,
      round_bot]
    norm_num⟩

/-- C6 amended: saving via `update_and_save` and loading the snapshot into a
fresh `StateManager`/bot via `apply_to_bot` restores `session_time_remaining`,
`banked_time`, `default_session_time`, `latch_active`, `latch_reason` and
`latch_end_time` bit-identical; `pump_intensity` is not persisted (it is
absent from the state dictionary) and resets to the constructor default, and
task handles are transient as the claim already allows. -/
theorem persisted_roundtrip_restores_fields (bot : BotState) (cfg : Config) :
    (init_bot_state (some (update_and_save bot)) cfg).session_time_remaining
      = bot.session_time_remaining ∧
    (init_bot_state (some (update_and_save bot)) cfg).banked_time
      = bot.banked_time ∧
    (init_bot_state (some (update_and_save bot)) cfg).default_session_time
      = bot.default_session_time ∧
    (init_bot_state (some (update_and_save bot)) cfg).latch_active
      = bot.latch_active ∧
    (init_bot_state (some (update_and_save bot)) cfg).latch_reason
      = bot.latch_reason ∧
    (init_bot_state (some (update_and_save bot)) cfg).latch_end_time
      = bot.latch_end_time ∧
    (init_bot_state (some (update_and_save bot)) cfg).pump_intensity = 1 := by
  refine ⟨rfl, rfl, rfl, rfl, rfl, rfl, rfl⟩

/-- C7 counterexample: the claim asserts `session set` rejects values whose
total exceeds the configured maximum with no state change, but with
`max_session_time = 7200` a request of 200 minutes (12000 s) is accepted,
mutates the state, and stores the clamped 7200 rather than the requested
value. -/
theorem session_set_clamps_instead_of_rejecting :
    (200 * 60 : Int) > cfg0.max_session_time ∧
    (session_set cfg0 idle_bot 200).2 = true ∧
    (session_set cfg0 idle_bot 200).1 ≠ idle_bot ∧
    (session_set cfg0 idle_bot 200).1.session_time_remaining = 7200 ∧
    (session_set cfg0 idle_bot 200).1.session_time_remaining ≠ 200 * 60 := by
  decide

/-- C7 amended: `session set` rejects negative input with no state change;
every non-negative input is accepted, setting `session_time_remaining` to
the requested value clamped at `max_session_time` (over-maximum requests are
clamped, not rejected) and clearing the stale `session_pump_start`
marker. -/
theorem session_set_spec (cfg : Config) (s : BotState) (minutes : Int) :
    (minutes < 0 → session_set cfg s minutes = (s, false)) ∧
    (0 ≤ minutes →
      session_set cfg s minutes =
        ({ s with
            session_time_remaining := min (minutes * 60) cfg.max_session_time
            session_pump_start := none }, true)) := by
  unfold session_set
  constructor
  · intro h; rw [if_pos h]
  · intro h; rw [if_neg (by omega)]

/-- Witness for the amended C7 at concrete inputs: minutes = -1 is rejected
unchanged, minutes = 5 stores 300 seconds and clears the marker. -/
theorem session_set_spec_witness :
    session_set cfg0 idle_bot (-1) = (idle_bot, false) ∧
    session_set cfg0 idle_bot 5 =
      ({ idle_bot with session_time_remaining := 300,
                       session_pump_start := none }, true) :=
  ⟨(session_set_spec cfg0 idle_bot (-1)).1 (by decide),
   ((session_set_spec cfg0 idle_bot 5).2 (by decide)).trans (by decide)⟩

/-- The state right after `latch on` with a reason and a 60-second duration
(actuator call succeeded, engaged at loop time 0). -/
def timed_latch_bot : BotState :=
  (toggle_latch idle_bot true (some "overnight") (some 60) true 0).1

/-- C9 counterexample: the LatchState invariant does hold after the latch-on
that created this state, but loading the persisted snapshot at startup
restores `latch_end_time` while the timer handle — a transient attribute —
comes back absent, so the freshly loaded state violates the invariant. -/
theorem latch_invariant_broken_by_startup_load :
    latch_invariant timed_latch_bot ∧
    ¬ latch_invariant
        (init_bot_state (some (update_and_save timed_latch_bot)) cfg0) := by
  decide

/-- C9 amended: the LatchState invariant is preserved by every latch
operation — `toggle_latch` (on or off, any reason/duration/actuator
outcome), auto-unlatch expiry and `set_latch_reason` — but it is not
re-established by loading persisted state at startup, which can restore
`latch_end_time` without a timer handle. -/
theorem latch_ops_preserve_invariant (s : BotState) (new_state : Bool)
    (reason r2 : Option String) (duration : Option Int) (apiOk : Bool)
    (now : Rat) (h : latch_invariant s) :
    latch_invariant (toggle_latch s new_state reason duration apiOk now).1 ∧
    latch_invariant (auto_unlatch s) ∧
    latch_invariant (set_latch_reason s r2).1 := by
  obtain ⟨h1, h2⟩ := h
  refine ⟨?_, ?_, ?_⟩
  · rcases duration with _ | d <;>
      cases new_state <;>
      cases hlt : s.latch_timer <;>
      simp_all [toggle_latch, latch_invariant] <;>
      split_ifs <;>
      simp_all
  · cases hlt : s.latch_timer <;> simp_all [auto_unlatch, latch_invariant]
  · cases hla : s.latch_active <;>
      simp_all [set_latch_reason, latch_invariant]

/-- Witness for the amended C9: `idle_bot` satisfies the invariant, and so
do the results of a timed latch-on with a failing actuator call, an
auto-unlatch, and a reason change applied to it. -/
theorem latch_ops_preserve_invariant_witness :
    latch_invariant idle_bot ∧
    latch_invariant
      (toggle_latch idle_bot true (some "w") (some 30) false 0).1 ∧
    latch_invariant (auto_unlatch idle_bot) ∧
    latch_invariant (set_latch_reason idle_bot (some "w")).1 :=
  ⟨by decide,
   (latch_ops_preserve_invariant idle_bot true (some "w") (some "w")
      (some 30) false 0 (by decide)).1,
   (latch_ops_preserve_invariant idle_bot true (some "w") (some "w")
      (some 30) false 0 (by decide)).2.1,
   (latch_ops_preserve_invariant idle_bot true (some "w") (some "w")
      (some 30) false 0 (by decide)).2.2⟩

/-- A bot state with a live timed pump task. -/
def running_bot : BotState :=
  { fresh_bot_attrs with
    session_time_remaining := 100
    pump_task_live := true
    pump_task_end_time := some 30 }

/-- C8 counterexample: the claim asserts every accepted intensity is pushed
to a live actuator without cancelling the running task, but 0.0 lies inside
the accepted range [0.0, 1.0] and `_send_pump_state_api` cancels the running
pump task whenever the pushed intensity equals 0.0. -/
theorem pump_intensity_zero_cancels_running_task :
    running_bot.pump_task_live = true ∧
    (pump_intensity_cmd running_bot 0 true 5).2 = .set_applied 0 ∧
    (pump_intensity_cmd running_bot 0 true 5).1.pump_task_live = false := by
  refine ⟨rfl, ?_, ?_⟩ <;>
    norm_num [pump_intensity_cmd, running_bot, fresh_bot_attrs]

/-- C8 amended: the intensity command rejects values outside [0.0, 1.0] with
no state change; every accepted value is stored as the default intensity,
and when a pump task is live the value is pushed to the actuator — without
cancelling the task when the value is positive, while an accepted 0.0
additionally cancels the running task; an actuator push failure is reported
(`set_apply_failed`) but the stored default is not rolled back. -/
theorem pump_intensity_spec (s : BotState) (i : Rat) (apiOk : Bool)
    (wall_now : Rat) :
    (¬(0 ≤ i ∧ i ≤ 1) →
      pump_intensity_cmd s i apiOk wall_now = (s, .rejected)) ∧
    (0 ≤ i → i ≤ 1 →
      (pump_intensity_cmd s i apiOk wall_now).1.pump_intensity = i ∧
      (s.pump_task_live = false →
        pump_intensity_cmd s i apiOk wall_now =
          ({ s with pump_intensity := i }, .set_only i)) ∧
      (s.pump_task_live = true → i ≠ 0 →
        (pump_intensity_cmd s i apiOk wall_now).1.pump_task_live = true ∧
        (apiOk = true →
          (pump_intensity_cmd s i apiOk wall_now).2 = .set_applied i) ∧
        (apiOk = false →
          pump_intensity_cmd s i apiOk wall_now =
            ({ s with pump_intensity := i }, .set_apply_failed i))) ∧
      (s.pump_task_live = true → i = 0 →
        (pump_intensity_cmd s i apiOk wall_now).1.pump_task_live = false)) := by
  unfold pump_intensity_cmd
  constructor
  · intro h; rw [if_pos h]
  · intro h0 h1
    rw [if_neg (not_not_intro ⟨h0, h1⟩)]
    refine ⟨?_, ?_, ?_, ?_⟩
    · cases hl : s.pump_task_live <;> by_cases hz : i = 0 <;>
        cases apiOk <;> simp [hl, hz]
    · intro hlive; simp [hlive]
    · intro hlive hne
      refine ⟨?_, ?_, ?_⟩ <;> cases apiOk <;> simp [hlive, hne]
    · intro hlive hz; cases apiOk <;> simp [hlive, hz]

/-- Witness for the amended C8 at concrete inputs: 1.5 is rejected; 0.7 on
`running_bot` keeps the task alive, reports success when the push succeeds,
and keeps the stored 0.7 when the push fails; 0.7 on `idle_bot` is stored
without any push; 0.0 on `running_bot` cancels the task. -/
theorem pump_intensity_spec_witness :
    pump_intensity_cmd running_bot (3/2) true 5 = (running_bot, .rejected) ∧
    (pump_intensity_cmd running_bot (7/10) true 5).1.pump_task_live
      = true ∧
    (pump_intensity_cmd running_bot (7/10) true 5).2
      = .set_applied (7/10) ∧
    pump_intensity_cmd running_bot (7/10) false 5 =
      ({ running_bot with pump_intensity := 7/10 }, .set_apply_failed (7/10)) ∧
    pump_intensity_cmd idle_bot (7/10) true 5 =
      ({ idle_bot with pump_intensity := 7/10 }, .set_only (7/10)) ∧
    (pump_intensity_cmd running_bot 0 true 5).1.pump_task_live = false :=
  ⟨(pump_intensity_spec running_bot (3/2) true 5).1 (by norm_num),
   ((pump_intensity_spec running_bot (7/10) true 5).2 (by norm_num)
      (by norm_num)).2.2.1 rfl (by norm_num) |>.1,
   ((pump_intensity_spec running_bot (7/10) true 5).2 (by norm_num)
      (by norm_num)).2.2.1 rfl (by norm_num) |>.2.1 rfl,
   ((pump_intensity_spec running_bot (7/10) false 5).2 (by norm_num)
      (by norm_num)).2.2.1 rfl (by norm_num) |>.2.2 rfl,
   ((pump_intensity_spec idle_bot (7/10) true 5).2 (by norm_num)
      (by norm_num)).2.1 rfl,
   ((pump_intensity_spec running_bot 0 true 5).2 (by norm_num)
      (by norm_num)).2.2.2 rfl rfl⟩

/-- C2: starting a Timed pump with no task running: the request is rejected
with the state untouched (no task spawned, no accounting change) whenever
`seconds ≤ 0`, `seconds > max_pump_duration`, the latch is active, the link
is down or `session_time_remaining ≤ 0`; otherwise the run length is
`min seconds session_time_remaining`, the actuator is commanded to the
stored intensity, and only on actuator success is
`end_time = now + run_seconds` recorded and the task spawned — on failure
nothing is spawned and the state is untouched. -/
theorem start_timed_pump_fresh_spec (cfg : Config) (s : BotState)
    (seconds : Int) (now wall_now : Rat) (apiOk : Bool)
    (hlive : s.pump_task_live = false) :
    ((seconds ≤ 0 ∨ seconds > cfg.max_pump_duration ∨
        s.latch_active = true ∨ s.service_was_up = false ∨
        s.session_time_remaining ≤ 0) →
      _start_timed_pump cfg s seconds now wall_now apiOk = (s, .rejected)) ∧
    (0 < seconds → seconds ≤ cfg.max_pump_duration →
      s.latch_active = false → s.service_was_up = true →
      0 < s.session_time_remaining →
      (apiOk = true →
        _start_timed_pump cfg s seconds now wall_now apiOk =
          ({ s with
              last_pump_time := some wall_now
              pump_task_end_time :=
                some (now + ((min seconds s.session_time_remaining : Int) : Rat))
              pump_task_live := true },
           .started (min seconds s.session_time_remaining)
             s.pump_intensity)) ∧
      (apiOk = false →
        _start_timed_pump cfg s seconds now wall_now apiOk =
          (s, .start_failed s.pump_intensity))) := by
  constructor
  · intro hrej
    unfold _start_timed_pump
    rcases hrej with h | h | h | h | h
    · rw [if_pos h]
    · by_cases hs0 : seconds ≤ 0
      · rw [if_pos hs0]
      · rw [if_neg hs0, if_pos (by omega)]
    · split_ifs <;> simp_all
    · split_ifs <;> simp_all
    · split_ifs <;> simp_all
  · intro h1 h2 h3 h4 h5
    unfold _start_timed_pump
    rw [if_neg (by omega), if_neg (by omega)]
    simp only [h3, h4, hlive, if_false, Bool.not_true, Bool.false_eq_true]
    rw [if_neg (by omega), if_neg (by omega)]
    constructor
    · intro hok; rw [if_pos hok]
    · intro hfail; rw [if_neg (by simp [hfail])]

/-- Witness for C2 at concrete inputs: on `idle_bot`
(`session_time_remaining = 100`, no task, link up, unlatched) a 90-second
request is rejected under `max_pump_duration = 60` (the spec's own example);
a 30-second request starts a 30-second run at the stored intensity when the
actuator call succeeds, and leaves the state untouched when it fails. -/
theorem start_timed_pump_fresh_spec_witness :
    _start_timed_pump cfg0 idle_bot 90 0 7 true = (idle_bot, .rejected) ∧
    _start_timed_pump cfg0 idle_bot 30 0 7 true =
      ({ idle_bot with
          last_pump_time := some 7
          pump_task_end_time := some (0 + ((min 30 100 : Int) : Rat))
          pump_task_live := true },
       .started (min 30 100) idle_bot.pump_intensity) ∧
    _start_timed_pump cfg0 idle_bot 30 0 7 false =
      (idle_bot, .start_failed idle_bot.pump_intensity) :=
  ⟨(start_timed_pump_fresh_spec cfg0 idle_bot 90 0 7 true rfl).1
      (by right; left; decide),
   ((start_timed_pump_fresh_spec cfg0 idle_bot 30 0 7 true rfl).2
      (by decide) (by decide) rfl rfl (by decide)).1 rfl,
   ((start_timed_pump_fresh_spec cfg0 idle_bot 30 0 7 false rfl).2
      (by decide) (by decide) rfl rfl (by decide)).2 rfl⟩

/-- C4: a Banked start is rejected with the state untouched whenever the
latch is active, the link is down, a task is already live, the bank is empty
or session time is empty; otherwise it computes
`run_seconds = min(seconds, banked_time, session_time_remaining,
max_pump_duration)`, rejects if that is ≤ 0 (this also covers `seconds ≤ 0`,
which the source rejects at its first guard), and on actuator success spawns
the banked loop with `end_time = now + run_seconds`; on actuator failure
nothing is spawned. -/
theorem start_banked_pump_spec (cfg : Config) (s : BotState)
    (seconds : Int) (now wall_now : Rat) (apiOk : Bool) :
    ((s.latch_active = true ∨ s.service_was_up = false ∨
        s.pump_task_live = true ∨ s.banked_time ≤ 0 ∨
        s.session_time_remaining ≤ 0) →
      _start_banked_pump cfg s seconds now wall_now apiOk = (s, .rejected)) ∧
    (s.latch_active = false → s.service_was_up = true →
      s.pump_task_live = false → 0 < s.banked_time →
      0 < s.session_time_remaining →
      (min seconds (min s.banked_time
          (min s.session_time_remaining cfg.max_pump_duration)) ≤ 0 →
        _start_banked_pump cfg s seconds now wall_now apiOk =
          (s, .rejected)) ∧
      (0 < min seconds (min s.banked_time
          (min s.session_time_remaining cfg.max_pump_duration)) →
        (apiOk = true →
          _start_banked_pump cfg s seconds now wall_now apiOk =
            ({ s with
                last_pump_time := some wall_now
                pump_task_end_time := some (now +
                  ((min seconds (min s.banked_time
                    (min s.session_time_remaining cfg.max_pump_duration))
                    : Int) : Rat))
                pump_task_live := true },
             .started
               (min seconds (min s.banked_time
                 (min s.session_time_remaining cfg.max_pump_duration)))
               s.pump_intensity)) ∧
        (apiOk = false →
          _start_banked_pump cfg s seconds now wall_now apiOk =
            (s, .start_failed s.pump_intensity)))) := by
  constructor
  · intro hrej
    unfold _start_banked_pump
    split_ifs <;> simp_all
  · intro h1 h2 h3 h4 h5
    unfold _start_banked_pump
    have hmin : min (min seconds s.banked_time)
        (min s.session_time_remaining cfg.max_pump_duration) =
        min seconds (min s.banked_time
          (min s.session_time_remaining cfg.max_pump_duration)) := by
      omega
    by_cases hs0 : seconds ≤ 0
    · rw [if_pos hs0]
      exact ⟨fun _ => rfl, fun hgt => absurd hgt (by omega)⟩
    · rw [if_neg hs0]
      simp only [h1, h2, h3, if_false, Bool.not_true, Bool.false_eq_true]
      rw [if_neg (by omega), if_neg (by omega)]
      constructor
      · intro hle
        rw [if_pos (by omega)]
      · intro hgt
        rw [if_neg (by omega)]
        constructor
        · intro hok; rw [if_pos hok, hmin]
        · intro hfail; rw [if_neg (by simp [hfail])]

/-- A bot state matching the spec's Banked example: 40 s banked, 100 s of
session time, nothing running. -/
def banked_bot : BotState :=
  { fresh_bot_attrs with session_time_remaining := 100, banked_time := 40 }

/-- Witness for C4 at the spec's own example: `banked_time = 40`,
`session_time_remaining = 100`, `seconds = 50`, `max_pump_duration = 60`
runs for exactly `min 50 (min 40 (min 100 60)) = 40` seconds (bank-limited)
when the actuator call succeeds; a latched state is rejected untouched; an
actuator failure spawns nothing. -/
theorem start_banked_pump_spec_witness :
    _start_banked_pump cfg0 banked_bot 50 0 7 true =
      ({ banked_bot with
          last_pump_time := some 7
          pump_task_end_time := some (0 + ((min 50 (min 40 (min 100 60))
            : Int) : Rat))
          pump_task_live := true },
       .started (min 50 (min 40 (min 100 60))) banked_bot.pump_intensity) ∧
    (min 50 (min 40 (min 100 60)) : Int) = 40 ∧
    _start_banked_pump cfg0 { banked_bot with latch_active := true }
        50 0 7 true =
      ({ banked_bot with latch_active := true }, .rejected) ∧
    _start_banked_pump cfg0 banked_bot 50 0 7 false =
      (banked_bot, .start_failed banked_bot.pump_intensity) :=
  ⟨(((start_banked_pump_spec cfg0 banked_bot 50 0 7 true).2 rfl rfl rfl
      (by decide) (by decide)).2 (by decide)).1 rfl,
   by decide,
   (start_banked_pump_spec cfg0 { banked_bot with latch_active := true }
      50 0 7 true).1 (by left; decide),
   (((start_banked_pump_spec cfg0 banked_bot 50 0 7 false).2 rfl rfl rfl
      (by decide) (by decide)).2 (by decide)).2 rfl⟩

/-- `Rat.floor` (the core function used by the embedding for Python's
`int()` on a non-negative float) agrees with Mathlib's floor, whose
`FloorRing ℚ` instance is built from it. -/
theorem rat_floor_eq_floor (q : ℚ) : Rat.floor q = ⌊q⌋ := rfl

/-- The extension granted by the claim's formula for a Timed start while a
task is live with `remaining = r`:
`min(seconds, max(0, min(r + max(0, session_time_remaining - r),
max_pump_duration) - r))`. -/
def timed_ext_grant (cfg : Config) (s : BotState) (seconds r : Int) : Int :=
  min seconds (max 0 (min (r + max 0 (s.session_time_remaining - r))
    cfg.max_pump_duration - r))

/-- C3: a Timed start while a Timed task is live with integral remaining
time `r = end_time - now` (with `0 ≤ r ≤ max_pump_duration` and the bank
within its cap, as this code's own flows guarantee) grants exactly
`timed_ext_grant` seconds of extension, advances `end_time` by exactly that
amount — so the reserved `r + granted` never exceeds `max_pump_duration` —
and deposits the unfulfilled remainder `seconds - granted` into
`banked_time` clamped at `max_banked_time`; session time is untouched and
the outcome of any actuator call is irrelevant (none is made here). -/
theorem start_timed_pump_extension_spec (cfg : Config) (s : BotState)
    (seconds r : Int) (now wall_now : Rat) (apiOk : Bool)
    (hlive : s.pump_task_live = true)
    (het : s.pump_task_end_time = some (now + (r : Rat)))
    (hr0 : 0 ≤ r) (hrmax : r ≤ cfg.max_pump_duration)
    (hbank : s.banked_time ≤ cfg.max_banked_time)
    (hs : 0 < seconds) (hsmax : seconds ≤ cfg.max_pump_duration)
    (hlatch : s.latch_active = false) (hup : s.service_was_up = true) :
    _start_timed_pump cfg s seconds now wall_now apiOk =
      ({ s with
          banked_time := min (s.banked_time +
            (seconds - timed_ext_grant cfg s seconds r)) cfg.max_banked_time
          pump_task_end_time := some ((now + (r : Rat)) +
            ((timed_ext_grant cfg s seconds r : Int) : Rat)) },
       .extendedBy ((timed_ext_grant cfg s seconds r : Int) : Rat)
         (min (s.banked_time + (seconds - timed_ext_grant cfg s seconds r))
            cfg.max_banked_time - s.banked_time)) ∧
    r + timed_ext_grant cfg s seconds r ≤ cfg.max_pump_duration ∧
    min (s.banked_time + (seconds - timed_ext_grant cfg s seconds r))
        cfg.max_banked_time ≤ cfg.max_banked_time := by
  have hgle : timed_ext_grant cfg s seconds r ≤ seconds := by
    unfold timed_ext_grant; omega
  have hg0 : 0 ≤ timed_ext_grant cfg s seconds r := by
    unfold timed_ext_grant; omega
  refine ⟨?_, by unfold timed_ext_grant; omega, by omega⟩
  unfold _start_timed_pump
  rw [if_neg (by omega), if_neg (by omega)]
  simp only [hlatch, hup, hlive, if_false, Bool.not_true, Bool.false_eq_true,
    if_true, het]
  have hrc : max 0 (now + (r : Rat) - now) = (r : Rat) := by
    rw [add_sub_cancel_left]
    exact max_eq_right (by exact_mod_cast hr0)
  simp only [hrc]
  have hcast : min (max 0 (min ((r : Rat) +
      max 0 ((s.session_time_remaining : Rat) - (r : Rat)))
        ((cfg.max_pump_duration : Int) : Rat) - (r : Rat))) ((seconds : Int) : Rat)
      = ((timed_ext_grant cfg s seconds r : Int) : Rat) := by
    rw [min_comm]
    unfold timed_ext_grant
    push_cast
    ring_nf
  rw [hcast]
  have hover : max 0 (((seconds : Int) : Rat) -
      ((timed_ext_grant cfg s seconds r : Int) : Rat)) =
      (((seconds - timed_ext_grant cfg s seconds r : Int)) : Rat) := by
    push_cast
    exact max_eq_right (by
      have : ((timed_ext_grant cfg s seconds r : Int) : Rat) ≤
          ((seconds : Int) : Rat) := by exact_mod_cast hgle
      linarith)
  rw [hover]
  by_cases hov : timed_ext_grant cfg s seconds r < seconds
  · rw [if_pos (by exact_mod_cast (by omega : (0 : Int) <
      seconds - timed_ext_grant cfg s seconds r))]
    simp only [rat_floor_eq_floor, Int.floor_intCast]
  · have hgeq : timed_ext_grant cfg s seconds r = seconds := by omega
    rw [if_neg (by rw [hgeq]; simp)]
    have hb : min (s.banked_time +
        (seconds - timed_ext_grant cfg s seconds r)) cfg.max_banked_time =
        s.banked_time := by omega
    rw [hb]
    simp [hgeq, hlatch, hup, hlive]

/-- A bot state with a live Timed task that has 30 s left (end time 30,
evaluated at loop time 0) and 35 s of session time, so only 5 more seconds
can be granted within `max_pump_duration = 60`. -/
def ext_bot : BotState :=
  { fresh_bot_attrs with
    session_time_remaining := 35
    pump_task_live := true
    pump_task_end_time := some 30 }

/-- Witness for C3 at the spec's own example: requesting 20 more seconds
when only 5 are available grants exactly 5 (`timed_ext_grant = 5`), banks
the 15-second overflow (bank had headroom), leaves session time untouched
and keeps the total reservation within `max_pump_duration`. -/
theorem start_timed_pump_extension_spec_witness :
    timed_ext_grant cfg0 ext_bot 20 30 = 5 ∧
    (_start_timed_pump cfg0 ext_bot 20 0 7 true).1.banked_time = 15 ∧
    (_start_timed_pump cfg0 ext_bot 20 0 7 true).1.session_time_remaining
      = 35 ∧
    (_start_timed_pump cfg0 ext_bot 20 0 7 true).2 =
      .extendedBy ((timed_ext_grant cfg0 ext_bot 20 30 : Int) : Rat)
        (min (ext_bot.banked_time +
          (20 - timed_ext_grant cfg0 ext_bot 20 30)) cfg0.max_banked_time -
          ext_bot.banked_time) ∧
    30 + timed_ext_grant cfg0 ext_bot 20 30 ≤ cfg0.max_pump_duration := by
  have h := start_timed_pump_extension_spec cfg0 ext_bot 20 30 0 7 true
    rfl (by simp [ext_bot, fresh_bot_attrs]) (by decide) (by decide)
    (by decide) (by decide) (by decide) rfl rfl
  refine ⟨by decide, ?_, ?_, ?_, h.2.1⟩
  · rw [h.1]; decide
  · rw [h.1]; decide
  · rw [h.1]

end LBIS
